import Mathlib

/-!
Verification of the switch-state derivation and command-dispatch logic of
`custom_components/ocpp/switch.py` (ha-ocpp).

The Python module defines four switch purpose descriptors (plain dicts) and a
`ChargePointSwitch` class whose operations are:
  * `is_on` (read_state): metric-driven comparison or cached state,
  * `async_turn_on` (activate): dispatch the on command, reconcile state,
  * `async_turn_off` (deactivate): dispatch the off command (three branches),
    always caching the negation of the command result.

The embedding below is a direct shallow translation: optional dict keys become
`Option` fields, the awaited boolean command results become a pure collaborator
function, and effects (metric reads, command dispatches) are returned as
explicit traces so frame properties can be stated.  A `KeyError` from a dict
subscript (`purpose["condition"]` on a descriptor lacking the key) is modelled
by an `Option` result of the whole operation (`none` = the operation raises).
-/

/-- Domain of the integration, from `const.py` (`DOMAIN`); used only for
identifier strings, no claim depends on its value. -/
def DOMAIN : String := "ocpp"

/-- Member name string of the external enum member
`HAChargerServices.service_charge_start` (Python `.name`). -/
def service_charge_start : String := "service_charge_start"

/-- Member name string of `HAChargerServices.service_charge_stop`. -/
def service_charge_stop : String := "service_charge_stop"

/-- Member name string of `HAChargerServices.service_availability`. -/
def service_availability : String := "service_availability"

/-- Member name string of `HAChargerServices.service_reset`. -/
def service_reset : String := "service_reset"

/-- Member name string of `HAChargerServices.service_unlock`. -/
def service_unlock : String := "service_unlock"

/-- Value of the external enum member `HAChargerStatuses.status`; no claim
depends on the exact string. -/
def status_value : String := "Status"

/-- Value of the external enum member `ChargePointStatus.charging`; no claim
depends on the exact string. -/
def charging_value : String := "Charging"

/-- Value of the external enum member `ChargePointStatus.available`; no claim
depends on the exact string. -/
def available_value : String := "Available"

/-- A switch purpose descriptor: the Python module's descriptor dicts
(`SWITCH_CHARGE`, `SWITCH_AVAILABILITY`, `SWITCH_RESET`, `SWITCH_UNLOCK`).
Optional dict keys are `Option` fields; a missing key is `none`. -/
structure ServDesc where
  name : String
  on_command : String
  off_command : Option String := none
  pulse : Option Bool := none
  default_state : Option Bool := none
  metric : Option String := none
  condition : Option String := none
deriving DecidableEq, Repr

/-- `SWITCH_CHARGE` from `switch.py` lines 14-20. -/
def SWITCH_CHARGE : ServDesc :=
  { name := "Charge_Control"
    on_command := service_charge_start
    off_command := some service_charge_stop
    metric := some status_value
    condition := some charging_value }

/-- `SWITCH_AVAILABILITY` from `switch.py` lines 21-28. -/
def SWITCH_AVAILABILITY : ServDesc :=
  { name := "Availability"
    on_command := service_availability
    off_command := some service_availability
    default_state := some true
    metric := some status_value
    condition := some available_value }

/-- `SWITCH_RESET` from `switch.py` lines 29-33. -/
def SWITCH_RESET : ServDesc :=
  { name := "Reset"
    on_command := service_reset
    pulse := some true }

/-- `SWITCH_UNLOCK` from `switch.py` lines 34-38. -/
def SWITCH_UNLOCK : ServDesc :=
  { name := "Unlock"
    on_command := service_unlock
    pulse := some true }

/-- The collaborator interfaces of `CentralSystem` the switch uses:
`get_metric` (Metric Store; `none` is the missing/unknown sentinel, the
Python `None`, which never compares equal to a condition string) and
`set_charger_state` (Command Channel; the third argument is the optional
boolean state value, `none` when the call site passes no value). -/
structure CentralSystem where
  get_metric : String → String → Option String
  set_charger_state : String → String → Option Bool → Bool

/-- One dispatch through the Command Channel: charge point id, service
(command) name, and the optional boolean value argument. -/
structure Dispatch where
  cp_id : String
  service : String
  state : Option Bool
deriving DecidableEq, Repr

/-- The mutable entity state of a `ChargePointSwitch` instance
(`__init__`, lines 57-69): charge point id, purpose descriptor, cached
boolean state `_state`, and the derived identifier strings. -/
structure ChargePointSwitch where
  cp_id : String
  purpose : ServDesc
  state : Bool
  id : String
  name : String
  entity_id : String
deriving DecidableEq, Repr

/-- `ChargePointSwitch.__init__` (lines 57-69): `_state` is `False`, replaced
by `bool(purpose["default"])` when the `default` key is present; the
identifier strings are joined from the charge point id and descriptor name. -/
def ChargePointSwitch.init (cp_id : String) (serv_desc : ServDesc) :
    ChargePointSwitch :=
  let st :=
    match serv_desc.default_state with
    | some b => b
    | none => false
  { cp_id := cp_id
    purpose := serv_desc
    state := st
    id := String.intercalate "." ["switch", DOMAIN, cp_id, serv_desc.name]
    name := String.intercalate "." [cp_id, serv_desc.name]
    entity_id := "switch." ++ String.intercalate "_" [cp_id, serv_desc.name] }

/-- `ChargePointSwitch.is_on` (lines 81-91).  When the `metric` key is
present, the current metric value is read and compared for equality against
`purpose["condition"]` (a `KeyError` — modelled as `none` — if that key is
missing), the comparison result becomes the new `_state`, and it is
returned; otherwise the cached `_state` is returned unchanged.  The result
carries the updated switch and the list of Metric Store reads performed. -/
def ChargePointSwitch.is_on (central_system : CentralSystem)
    (sw : ChargePointSwitch) :
    Option (Bool × ChargePointSwitch × List (String × String)) :=
  match sw.purpose.metric with
  | some m =>
    match sw.purpose.condition with
    | none => none
    | some cond =>
      let resp := central_system.get_metric sw.cp_id m
      let st := if resp = some cond then true else false
      some (st, { sw with state := st }, [(sw.cp_id, m)])
  | none => some (sw.state, sw, [])

/-- `ChargePointSwitch.async_turn_on` (lines 93-103).  Dispatch the `on`
command with no value argument; when `purpose.get("pulse", False) is True`
cache the negated result, otherwise cache the result.  Returns the updated
switch and the dispatches performed. -/
def ChargePointSwitch.async_turn_on (central_system : CentralSystem)
    (sw : ChargePointSwitch) : ChargePointSwitch × List Dispatch :=
  if sw.purpose.pulse.getD false = true then
    let resp := central_system.set_charger_state sw.cp_id sw.purpose.on_command none
    ({ sw with state := !resp }, [⟨sw.cp_id, sw.purpose.on_command, none⟩])
  else
    let resp := central_system.set_charger_state sw.cp_id sw.purpose.on_command none
    ({ sw with state := resp }, [⟨sw.cp_id, sw.purpose.on_command, none⟩])

/-- `ChargePointSwitch.async_turn_off` (lines 105-118).  Three branches:
no `off` key — trivial success, no dispatch; `off` equal to `on` — dispatch
it with explicit value `False`; otherwise dispatch `off` with no value.  In
every branch the cached state becomes the negation of the response. -/
def ChargePointSwitch.async_turn_off (central_system : CentralSystem)
    (sw : ChargePointSwitch) : ChargePointSwitch × List Dispatch :=
  match sw.purpose.off_command with
  | none =>
    let resp := true
    ({ sw with state := !resp }, [])
  | some offc =>
    if offc = sw.purpose.on_command then
      let resp := central_system.set_charger_state sw.cp_id offc (some false)
      ({ sw with state := !resp }, [⟨sw.cp_id, offc, some false⟩])
    else
      let resp := central_system.set_charger_state sw.cp_id offc none
      ({ sw with state := !resp }, [⟨sw.cp_id, offc, none⟩])

/-- The metric-driven state-derivation mode: the descriptor has `metric`
set. -/
def metricDriven (d : ServDesc) : Bool := d.metric.isSome

/-- The pulse state-derivation mode: the descriptor has `pulse` set to
`True`. -/
def pulseMode (d : ServDesc) : Bool := d.pulse == some true

/-- The default-driven state-derivation mode: the descriptor has `default`
set. -/
def defaultDriven (d : ServDesc) : Bool := d.default_state.isSome

/-- How many of the three state-derivation modes are present on a
descriptor. -/
def modeCount (d : ServDesc) : Nat :=
  (if metricDriven d then 1 else 0) + (if pulseMode d then 1 else 0) +
    (if defaultDriven d then 1 else 0)

/-- The totality precondition of `is_on`: whenever `metric` is present,
`condition` is present too. -/
def metricCondOk (d : ServDesc) : Bool := !d.metric.isSome || d.condition.isSome

/-- A Metric Store / Command Channel pair whose metric reads all resolve to
the missing/unknown sentinel and whose command dispatches all succeed; used
to instantiate universally quantified theorems at a concrete collaborator. -/
def csUnknown : CentralSystem :=
  { get_metric := fun _ _ => none
    set_charger_state := fun _ _ _ => true }

/-- A Metric Store / Command Channel pair whose metric reads all report the
charging status value. -/
def csCharging : CentralSystem :=
  { get_metric := fun _ _ => some charging_value
    set_charger_state := fun _ _ _ => true }

/-- The Charge_Control switch instance for charge point CP1. -/
def swCharge : ChargePointSwitch := ChargePointSwitch.init "CP1" SWITCH_CHARGE

/-- The Availability switch instance for charge point CP1. -/
def swAvail : ChargePointSwitch :=
  ChargePointSwitch.init "CP1" SWITCH_AVAILABILITY

/-- The Reset switch instance for charge point CP1. -/
def swReset : ChargePointSwitch := ChargePointSwitch.init "CP1" SWITCH_RESET

/-- A descriptor with no metric, no pulse, and a true default state. -/
def dDefaultTrue : ServDesc :=
  { name := "DefaultOn"
    on_command := "svc_on"
    default_state := some true }

/-- C1: for a switch whose descriptor has the metric key set (and, as on all
module descriptors, the condition key set), `is_on` returns exactly the
equality test of the Metric Store's current value against the condition,
stores that result as the new cached state, performs exactly one metric
read, and its result does not depend on the prior cached state. -/
theorem read_state_metric_determined (cs : CentralSystem)
    (sw : ChargePointSwitch) (m c : String) (hm : sw.purpose.metric = some m)
    (hc : sw.purpose.condition = some c) :
    sw.is_on cs =
      some ((if cs.get_metric sw.cp_id m = some c then true else false),
        { sw with
            state := if cs.get_metric sw.cp_id m = some c then true
              else false },
        [(sw.cp_id, m)]) ∧
    (∀ b : Bool, ChargePointSwitch.is_on cs { sw with state := b } =
      ChargePointSwitch.is_on cs sw) := by
  constructor
  · simp [ChargePointSwitch.is_on, hm, hc]
  · intro b
    simp [ChargePointSwitch.is_on, hm, hc]

/-- Witness for C1 at the Charge_Control instance and a store reporting the
charging status: the switch reads as on. -/
theorem read_state_metric_determined_witness :
    swCharge.purpose.metric = some status_value ∧
    swCharge.purpose.condition = some charging_value ∧
    swCharge.is_on csCharging =
      some (true, { swCharge with state := true },
        [(swCharge.cp_id, status_value)]) := by
  refine ⟨rfl, rfl, ?_⟩
  have h := read_state_metric_determined csCharging swCharge status_value
    charging_value rfl rfl
  simpa [csCharging] using h.1

/-- C2: `async_turn_on` caches the negation of the Command Channel result
when the descriptor's pulse flag is exactly true, and caches the result
itself when the pulse flag is false or absent. -/
theorem activate_state_reconciliation (cs : CentralSystem)
    (sw : ChargePointSwitch) :
    (sw.async_turn_on cs).1.state =
      (if sw.purpose.pulse = some true
        then !(cs.set_charger_state sw.cp_id sw.purpose.on_command none)
        else cs.set_charger_state sw.cp_id sw.purpose.on_command none) := by
  rcases h : sw.purpose.pulse with _ | b
  · simp [ChargePointSwitch.async_turn_on, h]
  · cases b <;> simp [ChargePointSwitch.async_turn_on, h]

/-- C3: `async_turn_off` caches the negation of the success signal in all
three of its branches, where the success signal is the dispatched command's
result when the off command is present and the trivial true when absent. -/
theorem deactivate_always_inverts (cs : CentralSystem)
    (sw : ChargePointSwitch) :
    (sw.async_turn_off cs).1.state =
      !(match sw.purpose.off_command with
        | none => true
        | some offc =>
          if offc = sw.purpose.on_command
            then cs.set_charger_state sw.cp_id offc (some false)
            else cs.set_charger_state sw.cp_id offc none) := by
  rcases h : sw.purpose.off_command with _ | offc
  · simp [ChargePointSwitch.async_turn_off, h]
  · by_cases ho : offc = sw.purpose.on_command <;>
      simp [ChargePointSwitch.async_turn_off, h, ho]

/-- C4 counterexample: the Availability descriptor does not have exactly one
state-derivation mode present — it has both the metric key and the default
state set. -/
theorem availability_mode_count_ne_one :
    ¬ modeCount SWITCH_AVAILABILITY = 1 := by decide

/-- C4 amended: Charge_Control, Reset, and Unlock each have exactly one
state-derivation mode present, while Availability has exactly two — the
metric-driven and the default-driven mode, not the pulse mode. -/
theorem descriptor_mode_counts :
    modeCount SWITCH_CHARGE = 1 ∧ modeCount SWITCH_RESET = 1 ∧
    modeCount SWITCH_UNLOCK = 1 ∧ modeCount SWITCH_AVAILABILITY = 2 ∧
    metricDriven SWITCH_AVAILABILITY = true ∧
    defaultDriven SWITCH_AVAILABILITY = true ∧
    pulseMode SWITCH_AVAILABILITY = false := by decide

/-- C5: when the descriptor has no off command, `async_turn_off` performs
zero dispatches and always leaves the cached state false. -/
theorem deactivate_no_off_command (cs : CentralSystem)
    (sw : ChargePointSwitch) (h : sw.purpose.off_command = none) :
    sw.async_turn_off cs = ({ sw with state := false }, []) := by
  simp [ChargePointSwitch.async_turn_off, h]

/-- Witness for C5 at the Reset instance: no dispatch, state false. -/
theorem deactivate_no_off_command_witness :
    swReset.purpose.off_command = none ∧
    swReset.async_turn_off csUnknown = ({ swReset with state := false }, []) :=
  ⟨rfl, deactivate_no_off_command csUnknown swReset rfl⟩

/-- C6: when the descriptor's off command is present, `async_turn_off`
performs exactly one dispatch; if the off command equals the on command the
dispatch uses the on-command identifier with the explicit value false,
otherwise it uses the off command with no value argument. -/
theorem deactivate_dispatch_shape (cs : CentralSystem)
    (sw : ChargePointSwitch) (offc : String)
    (h : sw.purpose.off_command = some offc) :
    (sw.async_turn_off cs).2 =
      [if offc = sw.purpose.on_command
        then ⟨sw.cp_id, sw.purpose.on_command, some false⟩
        else ⟨sw.cp_id, offc, none⟩] := by
  by_cases ho : offc = sw.purpose.on_command <;>
    simp [ChargePointSwitch.async_turn_off, h, ho]

/-- Witness for C6 at the Availability instance, whose off command equals
its on command: a single dispatch of the on command with value false. -/
theorem deactivate_dispatch_shape_witness :
    swAvail.purpose.off_command = some service_availability ∧
    service_availability = swAvail.purpose.on_command ∧
    (swAvail.async_turn_off csUnknown).2 =
      [⟨swAvail.cp_id, swAvail.purpose.on_command, some false⟩] := by
  refine ⟨rfl, rfl, ?_⟩
  have h := deactivate_dispatch_shape csUnknown swAvail service_availability rfl
  simpa using h

/-- C7: a newly constructed switch has cached state equal to the
descriptor's default state when present, and false otherwise; consequently
for a non-metric descriptor with a true default state, `is_on` returns true
before any command has been issued. -/
theorem init_state_default (cs : CentralSystem) (cp_id : String)
    (d : ServDesc) :
    (ChargePointSwitch.init cp_id d).state = d.default_state.getD false ∧
    (d.metric = none → d.default_state = some true →
      (ChargePointSwitch.init cp_id d).is_on cs =
        some (true, ChargePointSwitch.init cp_id d, [])) := by
  constructor
  · rcases hd : d.default_state with _ | b <;>
      simp [ChargePointSwitch.init, hd]
  · intro hm hd
    simp [ChargePointSwitch.is_on, ChargePointSwitch.init, hm, hd]

/-- Witness for C7 at a non-metric, non-pulse descriptor with a true
default state: the fresh instance reads as on. -/
theorem init_state_default_witness :
    dDefaultTrue.metric = none ∧ dDefaultTrue.default_state = some true ∧
    (ChargePointSwitch.init "CP1" dDefaultTrue).state =
      dDefaultTrue.default_state.getD false ∧
    (ChargePointSwitch.init "CP1" dDefaultTrue).is_on csUnknown =
      some (true, ChargePointSwitch.init "CP1" dDefaultTrue, []) := by
  have h := init_state_default csUnknown "CP1" dDefaultTrue
  exact ⟨rfl, rfl, h.1, h.2 rfl rfl⟩

/-- C8: for a metric-driven switch, when the Metric Store reports the
missing/unknown sentinel for the metric, `is_on` raises no error and
returns false, caching false. -/
theorem read_state_missing_metric (cs : CentralSystem)
    (sw : ChargePointSwitch) (m c : String)
    (hm : sw.purpose.metric = some m) (hc : sw.purpose.condition = some c)
    (hmiss : cs.get_metric sw.cp_id m = none) :
    sw.is_on cs = some (false, { sw with state := false }, [(sw.cp_id, m)]) := by
  simp [ChargePointSwitch.is_on, hm, hc, hmiss]

/-- Witness for C8 at the Charge_Control instance with a store holding no
metrics: the read resolves to false without error. -/
theorem read_state_missing_metric_witness :
    swCharge.purpose.metric = some status_value ∧
    swCharge.purpose.condition = some charging_value ∧
    csUnknown.get_metric swCharge.cp_id status_value = none ∧
    swCharge.is_on csUnknown =
      some (false, { swCharge with state := false },
        [(swCharge.cp_id, status_value)]) :=
  ⟨rfl, rfl, rfl,
    read_state_missing_metric csUnknown swCharge status_value charging_value
      rfl rfl rfl⟩

/-- C9: for a switch whose descriptor has no metric key, `is_on` returns
the cached state, leaves the whole instance unchanged, and performs no
Metric Store reads (and, having no access to the Command Channel, no
dispatches). -/
theorem read_state_no_metric (cs : CentralSystem) (sw : ChargePointSwitch)
    (h : sw.purpose.metric = none) :
    sw.is_on cs = some (sw.state, sw, []) := by
  simp [ChargePointSwitch.is_on, h]

/-- Witness for C9 at the Reset instance: the cached state comes back and
nothing is read. -/
theorem read_state_no_metric_witness :
    swReset.purpose.metric = none ∧
    swReset.is_on csUnknown = some (swReset.state, swReset, []) :=
  ⟨rfl, read_state_no_metric csUnknown swReset rfl⟩

/-- C10: `is_on` succeeds (raises no key error) exactly when the descriptor
satisfies the precondition that the condition key is present whenever the
metric key is; all four module descriptors satisfy that precondition. -/
theorem read_state_total_iff (cs : CentralSystem) (sw : ChargePointSwitch) :
    ((sw.is_on cs).isSome = true ↔ metricCondOk sw.purpose = true) ∧
    metricCondOk SWITCH_CHARGE = true ∧
    metricCondOk SWITCH_AVAILABILITY = true ∧
    metricCondOk SWITCH_RESET = true ∧
    metricCondOk SWITCH_UNLOCK = true := by
  refine ⟨?_, by decide, by decide, by decide, by decide⟩
  rcases hm : sw.purpose.metric with _ | m
  · simp [ChargePointSwitch.is_on, metricCondOk, hm]
  · rcases hc : sw.purpose.condition with _ | c <;>
      simp [ChargePointSwitch.is_on, metricCondOk, hm, hc]
